import Mathlib

/-!
Verification of the EPDEnvClock persistent-state and time-continuity engine
against its specification.

Modelling conventions (shallow embedding of the C++ sources):
* C++ `int64_t` / `time_t` / `int32_t` values are modelled as `ℤ`; the values
  occurring in the time computations are far below the 64-bit overflow bound,
  so wrap-around is not modelled.  Where a cast to an unsigned 32-bit integer
  matters (the NTP fraction conversions) the reduction modulo `2 ^ 32` is kept
  explicit.
* C++ `float` values (the drift rate, the processing-time estimate and the
  intermediate minute/millisecond quantities) are modelled as exact rationals
  `ℚ`; decimal literals such as `0.4f` and `0.6f` denote the exact rationals
  `2/5` and `3/5`.
* A C cast from a floating-point value to an integer type truncates toward
  zero; this is `ratTrunc` below.  C++ signed integer division and modulus
  also truncate toward zero; these are `Int.tdiv` and `Int.tmod`.
* Hardware and OS interactions (`gettimeofday`, UDP traffic, storage media)
  are passed in explicitly as values describing what the environment returned.
-/

namespace EPDEnvClock

/-- Truncation toward zero of a rational number, the meaning of a C cast such
as `(int64_t)(someFloatExpression)`. -/
def ratTrunc (q : ℚ) : ℤ := Int.tdiv q.num q.den

/-- A `struct timeval`: seconds and microseconds. -/
structure Timeval where
  sec : ℤ
  usec : ℤ
deriving DecidableEq

/-- Conversion of a `timeval` to Unix microseconds, from `timevalToUnixUs` in
`network_manager.cpp`. -/
def timevalToUnixUs (tv : Timeval) : ℤ := tv.sec * 1000000 + tv.usec

/-! ## NTP timestamp conversions (`network_manager.cpp`) -/

/-- Seconds between the NTP epoch (1900) and the Unix epoch (1970), the
constant `SEVENTY_YEARS` in `network_manager.cpp`. -/
def SEVENTY_YEARS : ℕ := 2208988800

/-- The constant `NTP_PACKET_SIZE` in `network_manager.cpp`. -/
def NTP_PACKET_SIZE : ℕ := 48

/-- From `network_manager.cpp`: `(uint32_t)(((uint64_t)usec << 32) / 1000000ULL)`.
The shift of a 32-bit value into a `uint64_t` is exact; the final cast back to
`uint32_t` is the reduction modulo `2 ^ 32`. -/
def usecToNtpFrac (usec : ℕ) : ℕ := (usec * 2 ^ 32 / 1000000) % 2 ^ 32

/-- From `network_manager.cpp`: `(uint32_t)(((uint64_t)frac * 1000000ULL) >> 32)`. -/
def ntpFracToUsec (frac : ℕ) : ℕ := (frac * 1000000 / 2 ^ 32) % 2 ^ 32

/-- From `ntpTimestampToUnixUs` in `network_manager.cpp`: shift the NTP-epoch
seconds to the Unix epoch and add the microsecond part of the fraction. -/
def ntpTimestampToUnixUs (ntpSec ntpFrac : ℕ) : ℤ :=
  ((ntpSec : ℤ) - (SEVENTY_YEARS : ℤ)) * 1000000 + (ntpFracToUsec ntpFrac : ℤ)

/-- The standard NTP clock-offset estimate computed in `tryNtpServer`:
`offset = ((t2 - t1) + (t3 - t4)) / 2` with C++ `int64_t` division. -/
def ntpOffsetUs (t1 t2 t3 t4 : ℤ) : ℤ := Int.tdiv ((t2 - t1) + (t3 - t4)) 2

/-- The round-trip estimate computed in `tryNtpServer`:
`delay = (t4 - t1) - (t3 - t2)`. -/
def ntpRoundTripUs (t1 t2 t3 t4 : ℤ) : ℤ := (t4 - t1) - (t3 - t2)

/-- The result record filled in by `tryNtpServer` (struct `NtpQueryResult`). -/
structure NtpQueryResult where
  correctedUnixUsAtReceive : ℤ := 0
  offsetUs : ℤ := 0
  rttUs : ℤ := 0
  waitTimeMs : ℕ := 0
deriving DecidableEq

/-- Everything a single `tryNtpServer` call observes from the outside world:
whether DNS resolution and the UDP send steps succeed, the size reported by
`parsePacket` after the wait loop (0 when the 2-second wait times out), the
wall-clock readings at send (`t1`) and receive (`t4`), and the raw 32-bit
timestamp fields of the response packet. -/
structure NtpServerEnv where
  dnsOk : Bool
  beginPacketOk : Bool
  endPacketOk : Bool
  packetSize : ℕ
  waitTimeMs : ℕ
  t1 : Timeval
  t4 : Timeval
  t2Sec : ℕ
  t2Frac : ℕ
  t3Sec : ℕ
  t3Frac : ℕ
deriving DecidableEq

/-- Shallow embedding of `tryNtpServer` from `network_manager.cpp`: each early
`return false` of the source becomes `none`; on success the function fills in
the `NtpQueryResult` exactly as the source does. -/
def tryNtpServer (env : NtpServerEnv) : Option NtpQueryResult :=
  if !env.dnsOk then none
  else if !env.beginPacketOk then none
  else if !env.endPacketOk then none
  else if env.packetSize < NTP_PACKET_SIZE then none
  else
    let t1UnixUs := timevalToUnixUs env.t1
    let t4UnixUs := timevalToUnixUs env.t4
    let t2UnixUs := ntpTimestampToUnixUs env.t2Sec env.t2Frac
    let t3UnixUs := ntpTimestampToUnixUs env.t3Sec env.t3Frac
    let offsetUs := ntpOffsetUs t1UnixUs t2UnixUs t3UnixUs t4UnixUs
    let rttUs := ntpRoundTripUs t1UnixUs t2UnixUs t3UnixUs t4UnixUs
    some { correctedUnixUsAtReceive := t4UnixUs + offsetUs
           offsetUs := offsetUs
           rttUs := rttUs
           waitTimeMs := env.waitTimeMs }

/-! ## Persistent RTC state (`deep_sleep_manager.h`) -/

/-- The constant `kDefaultDriftRateMsPerMin` from `deep_sleep_manager.h`. -/
def kDefaultDriftRateMsPerMin : ℚ := 170

/-- The `RTCState` record from `deep_sleep_manager.h`, one field per C++
member, with the C++ default member initializers reproduced as Lean default
field values. -/
structure RTCState where
  magic : ℕ := 0xDEADBEEF
  lastDisplayedMinute : ℕ := 255
  sensorInitialized : Bool := false
  bootCount : ℕ := 0
  lastNtpSyncBootCount : ℕ := 0
  lastNtpSyncTime : ℤ := 0
  lastRtcDriftMs : ℤ := 0
  lastRtcDriftValid : Bool := false
  imageSize : ℕ := 0
  savedTime : ℤ := 0
  savedTimeUs : ℤ := 0
  sleepDurationUs : ℕ := 0
  lastUploadedTime : ℤ := 0
  estimatedProcessingTime : ℚ := 5
  driftRateMsPerMin : ℚ := kDefaultDriftRateMsPerMin
  driftRateCalibrated : Bool := false
  cumulativeCompensationMs : ℤ := 0
deriving DecidableEq

/-- The `RTCState` holding the default value of every field, as declared in
`deep_sleep_manager.h`. -/
def defaultRTCState : RTCState := {}

/-! ## Time restore and drift compensation (`deep_sleep_manager.cpp`) -/

/-- The drift compensation computed in `restoreTimeFromRTC`:
`sleepMinutes = sleepDurationUs / 60000000.0f` and
`(int64_t)(sleepMinutes * driftRateMsPerMin * 1000.0f)`. -/
def driftCompensationUs (st : RTCState) : ℤ :=
  ratTrunc (((st.sleepDurationUs : ℚ) / 60000000) * st.driftRateMsPerMin * 1000)

/-- Shallow embedding of `restoreTimeFromRTC` in `deep_sleep_manager.cpp`.
`bootOverheadUs` is the `esp_timer_get_time()` reading (time since boot).
Returns the updated RTC state together with the `timeval` passed to
`settimeofday` (or `none` when `savedTime` is not positive and the system
clock is left untouched). -/
def restoreTimeFromRTC (st : RTCState) (bootOverheadUs : ℤ) :
    RTCState × Option Timeval :=
  if 0 < st.savedTime then
    let savedTimeUs := st.savedTime * 1000000 + st.savedTimeUs
    let wakeupTimeUs := savedTimeUs + (st.sleepDurationUs : ℤ) + bootOverheadUs
    let comp := driftCompensationUs st
    let wakeupTimeUs := wakeupTimeUs + comp
    ({ st with cumulativeCompensationMs :=
        st.cumulativeCompensationMs + Int.tdiv comp 1000 },
     some ⟨Int.tdiv wakeupTimeUs 1000000, Int.tmod wakeupTimeUs 1000000⟩)
  else (st, none)

/-- Shallow embedding of `DeepSleepManager_Init` in `deep_sleep_manager.cpp`
restricted to its effect on the RTC state and the system clock (the SD/SPIFFS
mounting is summarised by the two `stored...` arguments, the values that
`DeepSleepManager_LoadLastUploadedTime` and `DeepSleepManager_LoadDriftRate`
return, `0` meaning file absent or no storage). -/
def DeepSleepManager_Init (st : RTCState) (bootOverheadUs : ℤ)
    (storedLastUploadedTime : ℤ) (storedDriftRate : ℚ) :
    RTCState × Option Timeval :=
  let st := { st with bootCount := st.bootCount + 1 }
  let p :=
    if st.magic ≠ 0xDEADBEEF then
      ({ st with magic := 0xDEADBEEF
                 lastDisplayedMinute := 255
                 sensorInitialized := false
                 bootCount := 1
                 lastNtpSyncBootCount := 0
                 lastNtpSyncTime := 0
                 lastRtcDriftMs := 0
                 lastRtcDriftValid := false
                 imageSize := 0
                 savedTime := 0
                 savedTimeUs := 0
                 sleepDurationUs := 0
                 estimatedProcessingTime := 5 }, (none : Option Timeval))
    else
      restoreTimeFromRTC st bootOverheadUs
  let st := p.1
  let st :=
    if st.lastUploadedTime = 0 ∧ 0 < storedLastUploadedTime then
      { st with lastUploadedTime := storedLastUploadedTime }
    else st
  let st :=
    if st.driftRateCalibrated = false ∧ 0 < storedDriftRate then
      { st with driftRateMsPerMin := storedDriftRate, driftRateCalibrated := true }
    else st
  (st, p.2)

/-- Shallow embedding of `DeepSleepManager_ShouldSyncWiFiNtp` in
`deep_sleep_manager.cpp`; `currentMinute` is `tm_min` of the current local
time. -/
def DeepSleepManager_ShouldSyncWiFiNtp (st : RTCState) (currentMinute : ℕ) : Bool :=
  if st.lastNtpSyncBootCount = 0 then true
  else
    let lastMinute := st.lastDisplayedMinute
    let isSyncMinute := currentMinute == 0
    let isNewMinute := lastMinute != currentMinute
    if isSyncMinute && isNewMinute then true
    else if lastMinute == 59 && currentMinute == 59 then true
    else false

/-! ## NTP sync bookkeeping and drift recalibration (`deep_sleep_manager.cpp`) -/

/-- The constant `kMinValidTime` (2020-01-01 00:00:00 UTC) from
`DeepSleepManager_MarkNtpSynced`. -/
def kMinValidTime : ℤ := 1577836800

/-- The clamp of the measured true drift rate to `[kMinDriftRate, kMaxDriftRate]`
performed in `DeepSleepManager_MarkNtpSynced`. -/
def clampRate (trueRate : ℚ) : ℚ :=
  let c := if trueRate < 20 then 20 else trueRate
  if 300 < c then 300 else c

/-- The residual drift measured by `DeepSleepManager_MarkNtpSynced`:
`actualDriftMs = (ntpMs - rtcMs) - ntpSyncDurationMs`, with both `timeval`
readings reduced to milliseconds by C++ integer division. -/
def actualDriftMsOf (preSync ntpTime : Timeval) (ntpSyncDurationMs : ℕ) : ℤ :=
  (ntpTime.sec * 1000 + Int.tdiv ntpTime.usec 1000) -
    (preSync.sec * 1000 + Int.tdiv preSync.usec 1000) - (ntpSyncDurationMs : ℤ)

/-- The elapsed minutes since the previous sync used by
`DeepSleepManager_MarkNtpSynced`: `(float)(ntpTime.tv_sec - previousNtpSyncTime) / 60.0f`. -/
def minutesSinceSyncOf (previousNtpSyncTime : ℤ) (ntpTime : Timeval) : ℚ :=
  ((ntpTime.sec - previousNtpSyncTime : ℤ) : ℚ) / 60

/-- The pre-compensation drift rate recovered by
`DeepSleepManager_MarkNtpSynced`:
`trueRate = (actualDriftMs + cumulativeCompensationMs) / minutesSinceSync`. -/
def trueRateOf (st : RTCState) (preSync ntpTime : Timeval)
    (ntpSyncDurationMs : ℕ) : ℚ :=
  ((actualDriftMsOf preSync ntpTime ntpSyncDurationMs +
      st.cumulativeCompensationMs : ℤ) : ℚ) /
    minutesSinceSyncOf st.lastNtpSyncTime ntpTime

/-- Shallow embedding of `DeepSleepManager_MarkNtpSynced` restricted to its
effect on the RTC state.  `preSync` is the module variable
`rtcTimeBeforeNtpSync` (saved by `DeepSleepManager_SaveRtcTimeBeforeSync`),
`ntpTime` is the `gettimeofday` reading after the sync, and
`ntpSyncDurationMs` is the module variable saved by
`DeepSleepManager_SaveNtpSyncDuration`.  The float constants `0.4f`/`0.6f`
of the exponential moving average are modelled as the exact rationals
`4/10` and `6/10`. -/
def DeepSleepManager_MarkNtpSynced (st : RTCState) (preSync ntpTime : Timeval)
    (ntpSyncDurationMs : ℕ) : RTCState :=
  let st := { st with lastNtpSyncBootCount := st.bootCount }
  let previousNtpSyncTime := st.lastNtpSyncTime
  let st := { st with lastNtpSyncTime := ntpTime.sec }
  if kMinValidTime < preSync.sec then
    let actualDriftMs := actualDriftMsOf preSync ntpTime ntpSyncDurationMs
    let st := { st with lastRtcDriftMs := actualDriftMs, lastRtcDriftValid := true }
    let st :=
      if kMinValidTime < previousNtpSyncTime then
        let minutesSinceSync := minutesSinceSyncOf previousNtpSyncTime ntpTime
        if 1 ≤ minutesSinceSync then
          let trueDriftMs := actualDriftMs + st.cumulativeCompensationMs
          let trueRate : ℚ := (trueDriftMs : ℚ) / minutesSinceSync
          let clampedRate := clampRate trueRate
          if st.driftRateCalibrated then
            { st with driftRateMsPerMin :=
                st.driftRateMsPerMin * (4 / 10) + clampedRate * (6 / 10) }
          else
            { st with driftRateMsPerMin := clampedRate, driftRateCalibrated := true }
        else st
      else st
    { st with cumulativeCompensationMs := 0 }
  else
    { st with lastRtcDriftMs := 0, lastRtcDriftValid := false }

/-! ## Sleep scheduler (`deep_sleep_manager.cpp`) -/

/-- The local time reading used by `DeepSleepManager_CalculateSleepDuration`:
`tm_sec` from `getLocalTime` and `tv_usec` from `gettimeofday`. -/
structure LocalClockReading where
  sec : ℕ
  usec : ℕ

/-- Shallow embedding of `DeepSleepManager_CalculateSleepDuration`; the
argument is `none` when `getLocalTime` fails.  The float intermediates
(`currentMs`, `msUntilNextMinute`, `processingTimeMs`, `sleepMs`) are exact
rationals; the final `(uint64_t)` cast of the positive float `sleepMs * 1000.0f`
is truncation toward zero. -/
def DeepSleepManager_CalculateSleepDuration (reading : Option LocalClockReading)
    (estimatedProcessingTime : ℚ) : ℕ :=
  match reading with
  | none => 60 * 1000000
  | some t =>
      let currentMs : ℚ := ((t.usec / 1000 : ℕ) : ℚ)
      let msUntilNextMinute : ℚ := (60 - (t.sec : ℚ)) * 1000 - currentMs
      let processingTimeMs : ℚ := estimatedProcessingTime * 1000
      let sleepMs : ℚ := msUntilNextMinute - processingTimeMs
      let sleepMs : ℚ := if sleepMs < 1000 then 1000 else sleepMs
      (ratTrunc (sleepMs * 1000)).toNat

/-! ## Frame buffer load (`deep_sleep_manager.cpp`) -/

/-- What a `DeepSleepManager_LoadFrameBuffer` call observes from the storage
layer: which media are mounted, whether the frame-buffer file exists on the
active medium and opens, its reported size, and how many bytes `file.read`
returns. -/
structure StorageEnv where
  sdCardAvailable : Bool
  spiffsMounted : Bool
  fileExists : Bool
  openOk : Bool
  fileSize : ℕ
  readBytes : ℕ
deriving DecidableEq

/-- Shallow embedding of `DeepSleepManager_LoadFrameBuffer`, following the
source's check order: recorded image size, storage availability, file
existence, open success, the double size check, and the full-read check. -/
def DeepSleepManager_LoadFrameBuffer (st : RTCState) (env : StorageEnv)
    (size : ℕ) : Bool :=
  if st.imageSize = 0 then false
  else if !(env.sdCardAvailable || env.spiffsMounted) then false
  else if !env.fileExists then false
  else if !env.openOk then false
  else if env.fileSize ≠ st.imageSize ∨ env.fileSize ≠ size then false
  else env.readBytes == size

/-! ## Full NTP synchronisation (`network_manager.cpp`) -/

/-- The `NetworkState` struct from `network_manager.h`. -/
structure NetworkState where
  wifiConnected : Bool := false
  ntpSynced : Bool := false
  wifiConnectTime : ℕ := 0
  ntpSyncTime : ℕ := 0
deriving DecidableEq

/-- The fallback loop of `NetworkManager_SyncNtp`: try each configured server
in order, stopping at the first `tryNtpServer` success. -/
def firstNtpSuccess : List NtpServerEnv → Option NtpQueryResult
  | [] => none
  | env :: rest =>
      match tryNtpServer env with
      | some r => some r
      | none => firstNtpSuccess rest

/-- Shallow embedding of `NetworkManager_SyncNtp` restricted to its effect on
the network state and the system clock.  `serverEnvs` holds one environment
per configured NTP server (three in the source), `clockNowUs` is the
`gettimeofday` reading taken after the server loop, `syncTimeMs` the elapsed
`millis` of the attempt.  Returns the boolean result, the updated state, and
the system clock in Unix microseconds after the call: unchanged when every
server fails (the failure path never calls `settimeofday`), otherwise the
value committed through `settimeofday`. -/
def NetworkManager_SyncNtp (serverEnvs : List NtpServerEnv) (state : NetworkState)
    (clockNowUs : ℤ) (syncTimeMs : ℕ) : Bool × NetworkState × ℤ :=
  match firstNtpSuccess serverEnvs with
  | none =>
      (false, { state with ntpSynced := false, ntpSyncTime := 0 }, clockNowUs)
  | some r =>
      let elapsedSinceReceiveUs :=
        if r.correctedUnixUsAtReceive ≠ 0 then
          let t4UnixUsApprox := r.correctedUnixUsAtReceive - r.offsetUs
          let e := clockNowUs - t4UnixUsApprox
          if e < 0 then 0 else e
        else 0
      let correctedNowUnixUs := r.correctedUnixUsAtReceive + elapsedSinceReceiveUs
      let tvSec := Int.tdiv correctedNowUnixUs 1000000
      let tvUsec := Int.tmod correctedNowUnixUs 1000000
      (true, { state with ntpSynced := true, ntpSyncTime := syncTimeMs },
       timevalToUnixUs ⟨tvSec, tvUsec⟩)

/-! ## Warm-wake traces (for the cumulative-compensation invariant) -/

/-- The per-cycle inputs of one warm wake that does not sync: the boot
overhead observed by `restoreTimeFromRTC`, and the values that
`DeepSleepManager_EnterDeepSleep` saves into the RTC state before the next
sleep. -/
structure WakeInput where
  bootOverheadUs : ℤ
  nextSavedTime : ℤ
  nextSavedTimeUs : ℤ
  nextSleepDurationUs : ℕ

/-- The save step of `DeepSleepManager_EnterDeepSleep`: record the current
time and the requested sleep duration in the RTC state. -/
def enterDeepSleepSave (st : RTCState) (w : WakeInput) : RTCState :=
  { st with savedTime := w.nextSavedTime
            savedTimeUs := w.nextSavedTimeUs
            sleepDurationUs := w.nextSleepDurationUs }

/-- The drift compensation (in milliseconds, as accumulated into
`cumulativeCompensationMs`) that a single `restoreTimeFromRTC` call applies:
`driftCompensationUs / 1000` when `savedTime > 0`, nothing otherwise. -/
def appliedCompMs (st : RTCState) : ℤ :=
  if 0 < st.savedTime then Int.tdiv (driftCompensationUs st) 1000 else 0

/-- A sequence of warm wakes with no intervening NTP sync: each wake restores
time from the RTC state and then saves the next sleep parameters.  Returns
the final state and the list of compensations applied by the individual
restores. -/
def runWarmWakes : RTCState → List WakeInput → RTCState × List ℤ
  | st, [] => (st, [])
  | st, w :: ws =>
      let applied := appliedCompMs st
      let st1 := (restoreTimeFromRTC st w.bootOverheadUs).1
      let st2 := enterDeepSleepSave st1 w
      let rest := runWarmWakes st2 ws
      (rest.1, applied :: rest.2)

/-! ## Concrete inputs used by the witness theorems -/

/-- A concrete fully-successful NTP exchange: sent at 100 s, answered by a
server whose clock matches, received 400 us later. -/
def sampleNtpEnv : NtpServerEnv :=
  { dnsOk := true
    beginPacketOk := true
    endPacketOk := true
    packetSize := 48
    waitTimeMs := 7
    t1 := ⟨100, 0⟩
    t4 := ⟨100, 400⟩
    t2Sec := 2208988900
    t2Frac := 0
    t3Sec := 2208988900
    t3Frac := 0 }

/-- The query result `tryNtpServer` produces on `sampleNtpEnv`. -/
def sampleNtpResult : NtpQueryResult :=
  { correctedUnixUsAtReceive := 100000200
    offsetUs := -200
    rttUs := 400
    waitTimeMs := 7 }

/-- A concrete warm-wake RTC state: time saved at 1700000000.250000 s, a
60-second sleep requested, factory default drift rate. -/
def sampleSleepState : RTCState :=
  { defaultRTCState with
      bootCount := 3
      savedTime := 1700000000
      savedTimeUs := 250000
      sleepDurationUs := 60000000 }

/-- A state whose cumulative compensation counter is stale (nonzero) when a
first successful sync happens while the pre-sync RTC time is still invalid. -/
def staleCompState : RTCState :=
  { defaultRTCState with bootCount := 2, cumulativeCompensationMs := 5 }

/-- Per-cycle inputs for two consecutive warm wakes. -/
def sampleWakes : List WakeInput :=
  [⟨150000, 1700000065, 100000, 55000000⟩, ⟨160000, 1700000125, 200000, 58000000⟩]

/-- A calibrated state whose stored drift rate is far outside the clamp band,
as `DeepSleepManager_Init` can produce by adopting any positive value found in
the drift-rate file on storage. -/
def outOfBandRateState : RTCState :=
  { defaultRTCState with
      bootCount := 2
      lastNtpSyncTime := 1700000000
      driftRateMsPerMin := 10000
      driftRateCalibrated := true }

/-- A calibrated state whose stored drift rate is inside the clamp band. -/
def inBandRateState : RTCState :=
  { defaultRTCState with
      bootCount := 2
      lastNtpSyncTime := 1700000000
      driftRateMsPerMin := 170
      driftRateCalibrated := true }

/-- Three server environments that all fail, one per configured NTP server:
DNS resolution failure, send (`endPacket`) failure, and a response timeout
(`parsePacket` still returning 0 after the 2-second wait). -/
def failingServerEnvs : List NtpServerEnv :=
  [{ sampleNtpEnv with dnsOk := false },
   { sampleNtpEnv with endPacketOk := false },
   { sampleNtpEnv with packetSize := 0 }]

/-- A state whose recorded frame-buffer image size is 48000 bytes. -/
def loadedImageState : RTCState := { defaultRTCState with imageSize := 48000 }

/-- A storage environment in which a frame-buffer load fully succeeds. -/
def okStorageEnv : StorageEnv :=
  { sdCardAvailable := true
    spiffsMounted := false
    fileExists := true
    openOk := true
    fileSize := 48000
    readBytes := 48000 }

/-- A corrupted persistent record: the magic word does not match and every
field holds garbage. -/
def corruptedState : RTCState :=
  { magic := 0x12345678
    lastDisplayedMinute := 12
    sensorInitialized := true
    bootCount := 9
    lastNtpSyncBootCount := 7
    lastNtpSyncTime := 1700000000
    lastRtcDriftMs := 33
    lastRtcDriftValid := true
    imageSize := 48000
    savedTime := 1700000100
    savedTimeUs := 123
    sleepDurationUs := 55000000
    lastUploadedTime := 42
    estimatedProcessingTime := 6
    driftRateMsPerMin := 999
    driftRateCalibrated := true
    cumulativeCompensationMs := 7 }

end EPDEnvClock

namespace EPDEnvClock

/-! ## Theorems -/

/-- C1: in every completed `tryNtpServer` exchange the computed offset is
`((t2 - t1) + (t3 - t4)) / 2` and the computed round trip is
`(t4 - t1) - (t3 - t2)` over the Unix-microsecond timestamps; and on
synthetic timestamps with injected clock difference `theta` and symmetric
one-way delay `d` (so `t2 = t1 + d + theta` and `t4 = t3 + d - theta`), the
offset is exactly `theta` and the round trip exactly `2 * d`. -/
theorem C1_ntp_offset_roundtrip :
    (∀ (env : NtpServerEnv) (r : NtpQueryResult), tryNtpServer env = some r →
      r.offsetUs = ntpOffsetUs (timevalToUnixUs env.t1)
          (ntpTimestampToUnixUs env.t2Sec env.t2Frac)
          (ntpTimestampToUnixUs env.t3Sec env.t3Frac) (timevalToUnixUs env.t4) ∧
      r.rttUs = ntpRoundTripUs (timevalToUnixUs env.t1)
          (ntpTimestampToUnixUs env.t2Sec env.t2Frac)
          (ntpTimestampToUnixUs env.t3Sec env.t3Frac) (timevalToUnixUs env.t4)) ∧
    (∀ t1 t3 theta d : ℤ,
      ntpOffsetUs t1 (t1 + d + theta) t3 (t3 + d - theta) = theta ∧
      ntpRoundTripUs t1 (t1 + d + theta) t3 (t3 + d - theta) = 2 * d) := by
  constructor
  · intro env r h
    unfold tryNtpServer at h
    split_ifs at h
    injection h with h
    subst h
    exact ⟨rfl, rfl⟩
  · intro t1 t3 theta d
    constructor
    · have h2 : (t1 + d + theta - t1) + (t3 - (t3 + d - theta)) = 2 * theta := by ring
      rw [ntpOffsetUs, h2]
      exact Int.mul_tdiv_cancel_left theta (by norm_num)
    · rw [ntpRoundTripUs]; ring

/-- Witness for C1: the offset/round-trip equations evaluated on the concrete
exchange `sampleNtpEnv` and on the synthetic timestamps with `t1 = 100`,
`t3 = 200`, `theta = 3`, `d = 5`. -/
theorem C1_ntp_offset_roundtrip_witness :
    (sampleNtpResult.offsetUs = ntpOffsetUs (timevalToUnixUs sampleNtpEnv.t1)
        (ntpTimestampToUnixUs sampleNtpEnv.t2Sec sampleNtpEnv.t2Frac)
        (ntpTimestampToUnixUs sampleNtpEnv.t3Sec sampleNtpEnv.t3Frac)
        (timevalToUnixUs sampleNtpEnv.t4) ∧
     sampleNtpResult.rttUs = ntpRoundTripUs (timevalToUnixUs sampleNtpEnv.t1)
        (ntpTimestampToUnixUs sampleNtpEnv.t2Sec sampleNtpEnv.t2Frac)
        (ntpTimestampToUnixUs sampleNtpEnv.t3Sec sampleNtpEnv.t3Frac)
        (timevalToUnixUs sampleNtpEnv.t4)) ∧
    (ntpOffsetUs 100 (100 + 5 + 3) 200 (200 + 5 - 3) = 3 ∧
     ntpRoundTripUs 100 (100 + 5 + 3) 200 (200 + 5 - 3) = 2 * 5) :=
  ⟨C1_ntp_offset_roundtrip.1 sampleNtpEnv sampleNtpResult (by decide),
   C1_ntp_offset_roundtrip.2 100 200 3 5⟩

/-- C2: on a warm wake with a positive saved time, `restoreTimeFromRTC` sets
the system clock to
`savedTime * 10^6 + savedTimeUs + sleepDurationUs + bootOverheadUs + driftCompensationUs`
microseconds, where the drift compensation is the sleep duration expressed in
minutes times `driftRateMsPerMin` times 1000; every addition happens at
microsecond resolution, with no integer-second truncation. -/
theorem C2_restore_formula (st : RTCState) (bootOverheadUs : ℤ)
    (h : 0 < st.savedTime) :
    ((restoreTimeFromRTC st bootOverheadUs).2).map timevalToUnixUs =
      some (st.savedTime * 1000000 + st.savedTimeUs + (st.sleepDurationUs : ℤ) +
        bootOverheadUs + driftCompensationUs st) ∧
    driftCompensationUs st =
      ratTrunc (((st.sleepDurationUs : ℚ) / 60000000) * st.driftRateMsPerMin * 1000) := by
  refine ⟨?_, rfl⟩
  unfold restoreTimeFromRTC
  rw [if_pos h]
  have hdm := Int.tdiv_add_tmod
    (st.savedTime * 1000000 + st.savedTimeUs + (st.sleepDurationUs : ℤ) +
      bootOverheadUs + driftCompensationUs st) 1000000
  simp only [Option.map_some', Option.some.injEq, timevalToUnixUs]
  omega

/-- Witness for C2: the restore formula evaluated on the concrete state
`sampleSleepState` (a one-minute sleep at the default 170 ms/min rate, so the
compensation is exactly 170000 us). -/
theorem C2_restore_formula_witness :
    ((restoreTimeFromRTC sampleSleepState 123456).2).map timevalToUnixUs =
      some (sampleSleepState.savedTime * 1000000 + sampleSleepState.savedTimeUs +
        (sampleSleepState.sleepDurationUs : ℤ) + 123456 +
        driftCompensationUs sampleSleepState) ∧
    driftCompensationUs sampleSleepState =
      ratTrunc (((sampleSleepState.sleepDurationUs : ℚ) / 60000000) *
        sampleSleepState.driftRateMsPerMin * 1000) :=
  C2_restore_formula sampleSleepState 123456 (by decide)

/-- C3 counterexample: `DeepSleepManager_MarkNtpSynced` does not always reset
the cumulative compensation counter.  When the pre-sync RTC reading is still
invalid (before 2020) — as on a first sync after wakes whose restored clock
was near the epoch — the counter keeps its stale nonzero value. -/
theorem C3_counterexample :
    (DeepSleepManager_MarkNtpSynced staleCompState ⟨0, 0⟩ ⟨1700000000, 0⟩
        0).cumulativeCompensationMs ≠ 0 := by
  decide

/-- C3 amended: after every successful synchronisation whose pre-sync RTC
time is valid (later than the 2020 sanity threshold `kMinValidTime`) the
cumulative compensation counter equals 0; and after any number of warm-wake
restores with no intervening sync the counter equals the initial counter plus
the sum of the compensations (in the milliseconds the counter is kept in)
individually applied by each of those restores. -/
theorem C3_compensation_reset_amended :
    (∀ (st : RTCState) (preSync ntpTime : Timeval) (ntpSyncDurationMs : ℕ),
      kMinValidTime < preSync.sec →
      (DeepSleepManager_MarkNtpSynced st preSync ntpTime
          ntpSyncDurationMs).cumulativeCompensationMs = 0) ∧
    (∀ (st : RTCState) (ws : List WakeInput),
      (runWarmWakes st ws).1.cumulativeCompensationMs =
        st.cumulativeCompensationMs + ((runWarmWakes st ws).2).sum) := by
  constructor
  · intro st preSync ntpTime ntpSyncDurationMs h
    unfold DeepSleepManager_MarkNtpSynced
    rw [if_pos h]
  · intro st ws
    induction ws generalizing st with
    | nil => simp [runWarmWakes]
    | cons w ws ih =>
        have hrestore : ∀ (s : RTCState) (b : ℤ),
            (restoreTimeFromRTC s b).1.cumulativeCompensationMs =
              s.cumulativeCompensationMs + appliedCompMs s := by
          intro s b
          unfold restoreTimeFromRTC appliedCompMs
          split_ifs with hs <;> simp
        simp only [runWarmWakes, List.sum_cons]
        rw [ih]
        simp only [enterDeepSleepSave]
        rw [hrestore]
        ring

/-- Witness for C3 amended: the reset applied on a concrete valid-time sync of
`sampleSleepState`, and the cumulative counter of two concrete warm wakes. -/
theorem C3_compensation_reset_amended_witness :
    (DeepSleepManager_MarkNtpSynced sampleSleepState ⟨1700000060, 0⟩
        ⟨1700000060, 300000⟩ 250).cumulativeCompensationMs = 0 ∧
    (runWarmWakes sampleSleepState sampleWakes).1.cumulativeCompensationMs =
      sampleSleepState.cumulativeCompensationMs +
        ((runWarmWakes sampleSleepState sampleWakes).2).sum :=
  ⟨C3_compensation_reset_amended.1 sampleSleepState ⟨1700000060, 0⟩
      ⟨1700000060, 300000⟩ 250 (by decide),
   C3_compensation_reset_amended.2 sampleSleepState sampleWakes⟩

/-- C4 counterexample: a recalibration with a computed true rate outside
[20, 300] can leave the stored rate outside the band.  On the concrete state
`outOfBandRateState` (stored rate 10000, as adoptable verbatim from the
drift-rate file by `DeepSleepManager_Init`), a sync 10 minutes after the
previous one measuring 40000 ms of drift gives `trueRate = 4000`, which is
clamped to 300, but the exponential moving average with the out-of-band old
rate yields `10000 * 0.4 + 300 * 0.6 = 4180`, outside [20, 300]. -/
theorem C4_clamp_counterexample :
    (trueRateOf outOfBandRateState ⟨1700000560, 0⟩ ⟨1700000600, 0⟩ 0 = 4000 ∧
      300 < (4000 : ℚ)) ∧
    (DeepSleepManager_MarkNtpSynced outOfBandRateState ⟨1700000560, 0⟩
        ⟨1700000600, 0⟩ 0).driftRateMsPerMin = 4180 ∧
    ¬((20 : ℚ) ≤ 4180 ∧ (4180 : ℚ) ≤ 300) := by
  refine ⟨⟨?_, by norm_num⟩, ?_, by norm_num⟩
  · norm_num [trueRateOf, actualDriftMsOf, minutesSinceSyncOf, outOfBandRateState,
      defaultRTCState, Int.zero_tdiv]
  · norm_num [DeepSleepManager_MarkNtpSynced, outOfBandRateState, defaultRTCState,
      kMinValidTime, actualDriftMsOf, minutesSinceSyncOf, clampRate, Int.zero_tdiv]

/-- C4 amended: a recalibration performed by `DeepSleepManager_MarkNtpSynced`
whose computed true rate lies outside [20, 300] ms/min leaves the stored
drift rate within [20, 300] ms/min, provided the pre-recalibration state is
either uncalibrated or already holds a rate within the band (which is the
case for every state the module itself produces; only an out-of-band value
injected through the drift-rate file breaks it, as the counterexample
shows). -/
theorem C4_clamp_amended (st : RTCState) (preSync ntpTime : Timeval) (dur : ℕ)
    (hpre : kMinValidTime < preSync.sec)
    (hprev : kMinValidTime < st.lastNtpSyncTime)
    (hmin : 1 ≤ minutesSinceSyncOf st.lastNtpSyncTime ntpTime)
    (hband : st.driftRateCalibrated = false ∨
      (20 ≤ st.driftRateMsPerMin ∧ st.driftRateMsPerMin ≤ 300))
    (houtside : trueRateOf st preSync ntpTime dur < 20 ∨
      300 < trueRateOf st preSync ntpTime dur) :
    20 ≤ (DeepSleepManager_MarkNtpSynced st preSync ntpTime dur).driftRateMsPerMin ∧
      (DeepSleepManager_MarkNtpSynced st preSync ntpTime dur).driftRateMsPerMin ≤ 300 := by
  have hclamp : ∀ r : ℚ, 20 ≤ clampRate r ∧ clampRate r ≤ 300 := by
    intro r
    simp only [clampRate]
    split_ifs <;> constructor <;> linarith
  unfold DeepSleepManager_MarkNtpSynced
  dsimp only
  rw [if_pos hpre, if_pos hprev, if_pos hmin]
  rcases hcal : st.driftRateCalibrated with _ | _
  · rw [if_neg (show ¬(false = true) by simp)]
    dsimp only
    exact hclamp _
  · rw [if_pos (show true = true from rfl)]
    dsimp only
    rcases hband with hband | hband
    · rw [hcal] at hband
      exact absurd hband (by simp)
    · constructor
      · have := (hclamp (((actualDriftMsOf preSync ntpTime dur +
          st.cumulativeCompensationMs : ℤ) : ℚ) /
            minutesSinceSyncOf st.lastNtpSyncTime ntpTime)).1
        linarith
      · have := (hclamp (((actualDriftMsOf preSync ntpTime dur +
          st.cumulativeCompensationMs : ℤ) : ℚ) /
            minutesSinceSyncOf st.lastNtpSyncTime ntpTime)).2
        linarith

/-- Witness for C4 amended: a recalibration of the in-band calibrated state
`inBandRateState` with the same out-of-band measurement (true rate 4000)
lands on `170 * 0.4 + 300 * 0.6 = 248`, inside the band. -/
theorem C4_clamp_amended_witness :
    20 ≤ (DeepSleepManager_MarkNtpSynced inBandRateState ⟨1700000560, 0⟩
        ⟨1700000600, 0⟩ 0).driftRateMsPerMin ∧
      (DeepSleepManager_MarkNtpSynced inBandRateState ⟨1700000560, 0⟩
        ⟨1700000600, 0⟩ 0).driftRateMsPerMin ≤ 300 :=
  C4_clamp_amended inBandRateState ⟨1700000560, 0⟩ ⟨1700000600, 0⟩ 0
    (by decide) (by decide)
    (by norm_num [minutesSinceSyncOf, inBandRateState, defaultRTCState])
    (Or.inr (by norm_num [inBandRateState, defaultRTCState]))
    (Or.inr (by norm_num [trueRateOf, actualDriftMsOf, minutesSinceSyncOf,
      inBandRateState, defaultRTCState, Int.zero_tdiv]))

/-- C6 counterexample: on a magic-word mismatch `DeepSleepManager_Init` does
not reset the entire record.  On the concrete garbage state `corruptedState`
(with no values on storage) the fields `lastUploadedTime`,
`driftRateMsPerMin`, `driftRateCalibrated` and `cumulativeCompensationMs`
keep their garbage values instead of their declared defaults. -/
theorem C6_reset_counterexample :
    (DeepSleepManager_Init corruptedState 0 0 0).1.lastUploadedTime = 42 ∧
    defaultRTCState.lastUploadedTime = 0 ∧
    (DeepSleepManager_Init corruptedState 0 0 0).1.cumulativeCompensationMs = 7 ∧
    defaultRTCState.cumulativeCompensationMs = 0 ∧
    (DeepSleepManager_Init corruptedState 0 0 0).1.driftRateCalibrated = true ∧
    defaultRTCState.driftRateCalibrated = false ∧
    (DeepSleepManager_Init corruptedState 0 0 0).1.driftRateMsPerMin = 999 ∧
    defaultRTCState.driftRateMsPerMin = 170 := by
  refine ⟨?_, rfl, ?_, rfl, ?_, rfl, ?_, ?_⟩ <;>
    norm_num [DeepSleepManager_Init, corruptedState, defaultRTCState,
      restoreTimeFromRTC, kDefaultDriftRateMsPerMin]

/-- C6 amended: on a magic-word mismatch (and with nothing loadable from
storage) `DeepSleepManager_Init` resets every field of the record to its
declared default except `lastUploadedTime`, `driftRateMsPerMin`,
`driftRateCalibrated` and `cumulativeCompensationMs`, which keep their prior
values; the magic field becomes the sentinel, `bootCount` becomes 1, and the
system clock is not touched. -/
theorem C6_reset_amended (st : RTCState) (bootOverheadUs : ℤ)
    (h : st.magic ≠ 0xDEADBEEF) :
    DeepSleepManager_Init st bootOverheadUs 0 0 =
      ({ defaultRTCState with
          bootCount := 1
          lastUploadedTime := st.lastUploadedTime
          driftRateMsPerMin := st.driftRateMsPerMin
          driftRateCalibrated := st.driftRateCalibrated
          cumulativeCompensationMs := st.cumulativeCompensationMs }, none) := by
  unfold DeepSleepManager_Init
  dsimp only
  rw [if_pos h]
  rw [if_neg (by simp : ¬(st.lastUploadedTime = 0 ∧ (0 : ℤ) < 0))]
  rw [if_neg (by simp : ¬(st.driftRateCalibrated = false ∧ (0 : ℚ) < 0))]
  rfl

/-- Witness for C6 amended: the reset applied to the concrete garbage state
`corruptedState`. -/
theorem C6_reset_amended_witness :
    DeepSleepManager_Init corruptedState 0 0 0 =
      ({ defaultRTCState with
          bootCount := 1
          lastUploadedTime := corruptedState.lastUploadedTime
          driftRateMsPerMin := corruptedState.driftRateMsPerMin
          driftRateCalibrated := corruptedState.driftRateCalibrated
          cumulativeCompensationMs := corruptedState.cumulativeCompensationMs },
        none) :=
  C6_reset_amended corruptedState 0 (by decide)

/-- C5: `DeepSleepManager_ShouldSyncWiFiNtp` returns true exactly when the
device has never synced, or the current minute is 0 and differs from the last
displayed minute, or both the last displayed minute and the current minute
are 59; false in every other case. -/
theorem C5_should_sync_iff (st : RTCState) (currentMinute : ℕ) :
    DeepSleepManager_ShouldSyncWiFiNtp st currentMinute = true ↔
      st.lastNtpSyncBootCount = 0 ∨
      (currentMinute = 0 ∧ st.lastDisplayedMinute ≠ currentMinute) ∨
      (st.lastDisplayedMinute = 59 ∧ currentMinute = 59) := by
  unfold DeepSleepManager_ShouldSyncWiFiNtp
  split_ifs with h1
  · simp [h1]
  · by_cases h2 : currentMinute = 0 <;>
      by_cases h3 : st.lastDisplayedMinute = currentMinute <;>
      by_cases h4 : st.lastDisplayedMinute = 59 <;>
      by_cases h5 : currentMinute = 59 <;>
      simp_all

/-- C10: the NTP fraction conversions are range-preserving (the `uint32_t`
cast in `usecToNtpFrac` never wraps for a microsecond input, and
`ntpFracToUsec` of any 32-bit fraction lands in `[0, 999999]`), and the
round trip loses at most one microsecond without being the identity. -/
theorem C10_ntp_frac_conversions :
    (∀ u : ℕ, u ≤ 999999 →
      u * 2 ^ 32 / 1000000 < 2 ^ 32 ∧ usecToNtpFrac u = u * 2 ^ 32 / 1000000) ∧
    (∀ f : ℕ, f < 2 ^ 32 → ntpFracToUsec f ≤ 999999) ∧
    (∀ u : ℕ, u ≤ 999999 →
      ntpFracToUsec (usecToNtpFrac u) ≤ u ∧
      u - 1 ≤ ntpFracToUsec (usecToNtpFrac u)) ∧
    ntpFracToUsec (usecToNtpFrac 1) ≠ 1 := by
  refine ⟨?_, ?_, ?_, by decide⟩
  · intro u hu
    unfold usecToNtpFrac
    omega
  · intro f hf
    unfold ntpFracToUsec
    have h1 : f * 1000000 / 2 ^ 32 * 2 ^ 32 ≤ f * 1000000 := Nat.div_mul_le_self _ _
    have h2 : f * 1000000 / 2 ^ 32 ≤ 999999 := by
      by_contra hc
      have : 1000000 * 2 ^ 32 ≤ f * 1000000 / 2 ^ 32 * 2 ^ 32 :=
        Nat.mul_le_mul_right _ (by omega)
      omega
    calc f * 1000000 / 2 ^ 32 % 2 ^ 32 ≤ f * 1000000 / 2 ^ 32 := Nat.mod_le _ _
      _ ≤ 999999 := h2
  · intro u hu
    have hfrac : usecToNtpFrac u = u * 2 ^ 32 / 1000000 := by
      unfold usecToNtpFrac; omega
    have hback : ntpFracToUsec (u * 2 ^ 32 / 1000000) =
        (u * 2 ^ 32 / 1000000) * 1000000 / 2 ^ 32 := by
      unfold ntpFracToUsec; omega
    rw [hfrac, hback]
    constructor
    · have h1 : (u * 2 ^ 32 / 1000000) * 1000000 ≤ u * 2 ^ 32 :=
        Nat.div_mul_le_self _ _
      calc (u * 2 ^ 32 / 1000000) * 1000000 / 2 ^ 32
          ≤ u * 2 ^ 32 / 2 ^ 32 := Nat.div_le_div_right h1
        _ = u := Nat.mul_div_cancel u (by norm_num)
    · have hdm := Nat.div_add_mod (u * 2 ^ 32) 1000000
      have hmod : (u * 2 ^ 32) % 1000000 < 1000000 := Nat.mod_lt _ (by norm_num)
      have h1 : u * 2 ^ 32 - 999999 ≤ (u * 2 ^ 32 / 1000000) * 1000000 := by omega
      have h2 : (u * 2 ^ 32 - 999999) / 2 ^ 32 ≤
          (u * 2 ^ 32 / 1000000) * 1000000 / 2 ^ 32 := Nat.div_le_div_right h1
      have h3 : u - 1 ≤ (u * 2 ^ 32 - 999999) / 2 ^ 32 := by omega
      omega

/-- Witness for C10: the conversion bounds evaluated at the concrete
microsecond value 500000 and the concrete fraction 4294967295. -/
theorem C10_ntp_frac_conversions_witness :
    (500000 * 2 ^ 32 / 1000000 < 2 ^ 32 ∧
      usecToNtpFrac 500000 = 500000 * 2 ^ 32 / 1000000) ∧
    ntpFracToUsec 4294967295 ≤ 999999 ∧
    (ntpFracToUsec (usecToNtpFrac 500000) ≤ 500000 ∧
      500000 - 1 ≤ ntpFracToUsec (usecToNtpFrac 500000)) :=
  ⟨C10_ntp_frac_conversions.1 500000 (by decide),
   C10_ntp_frac_conversions.2.1 4294967295 (by decide),
   C10_ntp_frac_conversions.2.2.1 500000 (by decide)⟩

/-- C7: every single-server failure mode (DNS, send, timeout or short
response) makes `tryNtpServer` fail, and when every configured server fails,
`NetworkManager_SyncNtp` returns false with `ntpSynced` cleared and the
system clock exactly as it was (no `settimeofday` on the failure path). -/
theorem C7_total_sync_failure :
    (∀ env : NtpServerEnv,
      (env.dnsOk = false ∨ env.beginPacketOk = false ∨ env.endPacketOk = false ∨
        env.packetSize < NTP_PACKET_SIZE) →
      tryNtpServer env = none) ∧
    (∀ (serverEnvs : List NtpServerEnv) (state : NetworkState)
        (clockNowUs : ℤ) (syncTimeMs : ℕ),
      (∀ env ∈ serverEnvs, tryNtpServer env = none) →
      NetworkManager_SyncNtp serverEnvs state clockNowUs syncTimeMs =
        (false, { state with ntpSynced := false, ntpSyncTime := 0 }, clockNowUs)) := by
  constructor
  · intro env h
    unfold tryNtpServer
    split_ifs with h1 h2 h3 h4
    · rfl
    · rfl
    · rfl
    · rfl
    · rcases h with h | h | h | h
      · simp [h] at h1
      · simp [h] at h2
      · simp [h] at h3
      · exact absurd h h4
  · intro serverEnvs state clockNowUs syncTimeMs hall
    have hnone : firstNtpSuccess serverEnvs = none := by
      induction serverEnvs with
      | nil => rfl
      | cons e es ih =>
          simp only [firstNtpSuccess]
          rw [hall e (List.mem_cons_self e es)]
          exact ih fun env henv => hall env (List.mem_cons_of_mem e henv)
    unfold NetworkManager_SyncNtp
    rw [hnone]

/-- Witness for C7: a DNS failure on a concrete server environment, and a
full `NetworkManager_SyncNtp` run over three concretely failing servers that
leaves the clock value 1700000000000000 untouched. -/
theorem C7_total_sync_failure_witness :
    tryNtpServer { sampleNtpEnv with dnsOk := false } = none ∧
    NetworkManager_SyncNtp failingServerEnvs {} 1700000000000000 250 =
      (false, { ({} : NetworkState) with ntpSynced := false, ntpSyncTime := 0 },
        1700000000000000) :=
  ⟨C7_total_sync_failure.1 { sampleNtpEnv with dnsOk := false }
      (Or.inl (by decide)),
   C7_total_sync_failure.2 failingServerEnvs {} 1700000000000000 250 (by decide)⟩

/-- Helper: on a nonnegative rational the C truncation toward zero agrees
with the floor. -/
theorem ratTrunc_eq_floor_of_nonneg (q : ℚ) (h : 0 ≤ q) : ratTrunc q = ⌊q⌋ := by
  rw [ratTrunc, Rat.floor_def, Int.tdiv_eq_ediv (Rat.num_nonneg.mpr h)
    (Int.ofNat_nonneg q.den)]

/-- C8: with local time available, `DeepSleepManager_CalculateSleepDuration`
returns `max 1000 ((msUntilNextMinute - estimatedProcessingTime * 1000))`
milliseconds converted to microseconds, where
`msUntilNextMinute = (60 - currentSecond) * 1000 - currentMs`; at 23 seconds
past the minute (zero-millisecond fraction) with a 5-second estimate it
returns 32000000 us; the result is always at least 1000000 us; and with no
local time it is exactly 60000000 us. -/
theorem C8_sleep_duration :
    (∀ (t : LocalClockReading) (est : ℚ),
      DeepSleepManager_CalculateSleepDuration (some t) est =
        (ratTrunc ((max 1000 ((60 - (t.sec : ℚ)) * 1000 - ((t.usec / 1000 : ℕ) : ℚ) -
          est * 1000)) * 1000)).toNat) ∧
    DeepSleepManager_CalculateSleepDuration (some ⟨23, 0⟩) 5 = 32000000 ∧
    (∀ (reading : Option LocalClockReading) (est : ℚ),
      1000000 ≤ DeepSleepManager_CalculateSleepDuration reading est) ∧
    (∀ est : ℚ, DeepSleepManager_CalculateSleepDuration none est = 60000000) := by
  have hmain : ∀ (t : LocalClockReading) (est : ℚ),
      DeepSleepManager_CalculateSleepDuration (some t) est =
        (ratTrunc ((max 1000 ((60 - (t.sec : ℚ)) * 1000 - ((t.usec / 1000 : ℕ) : ℚ) -
          est * 1000)) * 1000)).toNat := by
    intro t est
    unfold DeepSleepManager_CalculateSleepDuration
    dsimp only
    split_ifs with h
    · rw [max_eq_left (le_of_lt h)]
    · rw [max_eq_right (not_lt.mp h)]
  have hlow : ∀ (reading : Option LocalClockReading) (est : ℚ),
      1000000 ≤ DeepSleepManager_CalculateSleepDuration reading est := by
    intro reading est
    match reading with
    | none => norm_num [DeepSleepManager_CalculateSleepDuration]
    | some t =>
        rw [hmain t est]
        set s : ℚ := max 1000 ((60 - (t.sec : ℚ)) * 1000 - ((t.usec / 1000 : ℕ) : ℚ) -
          est * 1000) with hs
        have h1 : (1000 : ℚ) ≤ s := le_max_left _ _
        have h2 : (1000000 : ℚ) ≤ s * 1000 := by linarith
        have h3 : (1000000 : ℤ) ≤ ratTrunc (s * 1000) := by
          rw [ratTrunc_eq_floor_of_nonneg _ (by linarith)]
          exact Int.le_floor.mpr (by exact_mod_cast h2)
        omega
  refine ⟨hmain, ?_, hlow, fun est => rfl⟩
  rw [hmain ⟨23, 0⟩ 5]
  norm_num [ratTrunc]
  decide

/-- C9: `DeepSleepManager_LoadFrameBuffer` reports success only when the
recorded image size is nonzero, a storage medium is available, the file
exists, its size equals both the recorded image size and the requested size,
and the content read returns exactly the requested number of bytes; in every
other case it returns false. -/
theorem C9_load_fail_closed (st : RTCState) (env : StorageEnv) (size : ℕ)
    (h : DeepSleepManager_LoadFrameBuffer st env size = true) :
    st.imageSize ≠ 0 ∧
    (env.sdCardAvailable = true ∨ env.spiffsMounted = true) ∧
    env.fileExists = true ∧
    env.fileSize = st.imageSize ∧ env.fileSize = size ∧
    env.readBytes = size := by
  unfold DeepSleepManager_LoadFrameBuffer at h
  split_ifs at h with h1 h2 h3 h4 h5
  have hmedia : env.sdCardAvailable = true ∨ env.spiffsMounted = true := by
    by_contra hc
    push_neg at hc
    simp only [Bool.not_eq_true] at hc
    exact h2 (by simp [hc.1, hc.2])
  have hexists : env.fileExists = true := by
    by_contra hc
    simp only [Bool.not_eq_true] at hc
    exact h3 (by simp [hc])
  push_neg at h5
  exact ⟨h1, hmedia, hexists, h5.1, h5.2, by simpa using h⟩

/-- Witness for C9: a fully successful load of a 48000-byte frame buffer from
the SD card, from which all six conditions follow. -/
theorem C9_load_fail_closed_witness :
    loadedImageState.imageSize ≠ 0 ∧
    (okStorageEnv.sdCardAvailable = true ∨ okStorageEnv.spiffsMounted = true) ∧
    okStorageEnv.fileExists = true ∧
    okStorageEnv.fileSize = loadedImageState.imageSize ∧
    okStorageEnv.fileSize = 48000 ∧
    okStorageEnv.readBytes = 48000 :=
  C9_load_fail_closed loadedImageState okStorageEnv 48000 (by decide)

end EPDEnvClock
